import Mathlib

/-!
Shallow embedding of `src/fuse-3.11.0/example/passthrough.c`: a FUSE
passthrough filesystem whose `open` handler interposes authentication
(`verifica_credenciais`), authorization (`verifica_acesso`), an OTP
second factor (`gera_password` / `string_alloc`) and a special-file gate.

Modelling conventions, each traced to the C source:
* A text file is `Option (List String)`: `none` models `fopen` failing
  (with the errno it sets passed explicitly), `some lines` models the
  sequence of lines `fgets` delivers.  Line content is kept verbatim —
  the C never strips the trailing newline, and the model adds or removes
  nothing.
* `strtok(line, ",")` splits on commas and never yields empty tokens;
  `cTokens` mirrors that.
* `errno` is threaded explicitly: library calls that succeed are
  modelled as leaving it unchanged, and a failing `fopen`/`open` sets it
  to an explicitly passed value.  `return -errno` in the C becomes
  negation of the threaded value.
* Reads of uninitialized C buffers (e.g. `credenciais[1]` when the
  matched line has fewer fields, or `acesso[j]` past the copied tokens)
  are modelled as comparing unequal.
-/

set_option autoImplicit false
set_option maxRecDepth 8192

namespace Passthrough

/-- `strtok(line, ",")` loop: split a line at `,`; `strtok` skips empty
tokens, hence the filter. -/
def splitCommaAux (cur : List Char) : List Char → List (List Char)
  | [] => [cur.reverse]
  | c :: cs =>
    if c = ',' then cur.reverse :: splitCommaAux [] cs
    else splitCommaAux (c :: cur) cs

/-- The list of tokens `strtok(line, ",")` produces for one line. -/
def cTokens (line : String) : List String :=
  ((splitCommaAux [] line.toList).map (fun l => String.mk l)).filter
    (fun t => decide (t ≠ ""))

/-- The inner `while (token != NULL)` loop of `verifica_credenciais` /
`verifica_acesso`: scan the tokens of a line for the first one equal to
`key` (the C sets `guardar` there) and return that token together with
all tokens after it (the C copies them with `strcpy` from that point
on). -/
def matchFrom (key : String) : List String → Option (List String)
  | [] => none
  | t :: ts => if t = key then some (t :: ts) else matchFrom key ts

/-- The outer `while (fgets(...))` loop shared by the two stores: the
first line containing a token equal to `key` decides the call (once
`guardar` is set the C returns before reading another line); the copied
record is the matched token and everything after it. -/
def fileLookup (key : String) : List String → Option (List String)
  | [] => none
  | l :: ls =>
    match matchFrom key (cTokens l) with
    | some rec => some rec
    | none => fileLookup key ls

/-- `verifica_credenciais` (passthrough.c:322).  Arguments: the
credential file content (`none` = `fopen` failed, with `fopenErr` the
errno it set), the entered username and password, and the ambient errno
on entry.  Result: the C `int` return value, the errno afterwards, and
the `credenciais` record that was copied (when a line matched).
Returns `1` when the field after the matched one equals the password,
`-errno` when a line matched but the password differs, `0` when no line
matched, `-fopenErr` when the file could not be opened. -/
def verifica_credenciais (file : Option (List String)) (fopenErr : Int)
    (myuser mypass : String) (errno : Int) :
    Int × Int × Option (List String) :=
  match file with
  | none => (-fopenErr, fopenErr, none)
  | some lines =>
    match fileLookup myuser lines with
    | none => (0, errno, none)
    | some rec =>
      if rec[1]? = some mypass then (1, errno, some rec)
      else (-errno, errno, some rec)

/-- The `for (j = 0; j < 5; j++)` scan of `verifica_acesso`
(passthrough.c:415): the first five copied fields — the matched (path)
field included — are compared against `id`. -/
def scanFirst5 (rec : List String) (id : String) : Bool :=
  (rec.take 5).any (fun t => decide (t = id))

/-- `verifica_acesso` (passthrough.c:377).  Arguments: the permission
file content (`none` = `fopen` failed with errno `fopenErr`), the
user-id and path, and the ambient errno.  Result: the C `int` return
and the errno afterwards.  Returns `1` when one of the first five
fields from the match onward equals `id`, `-errno` when a line matched
but none does, `0` when no line matched, `-fopenErr` on `fopen`
failure. -/
def verifica_acesso (file : Option (List String)) (fopenErr : Int)
    (id path : String) (errno : Int) : Int × Int :=
  match file with
  | none => (-fopenErr, fopenErr)
  | some lines =>
    match fileLookup path lines with
    | none => (0, errno)
    | some rec =>
      if scanFirst5 rec id then (1, errno)
      else (-errno, errno)

/-- The alphabet literal of `gera_password` (passthrough.c:300),
verbatim. -/
def charset : String :=
  "abcdcv9834543543wedwed4534547234234sa65234csacsacascFE4R4R23423324324xfsd5423434634f43543rt6546546fert54c34f43534543534sdf654654sdffds23423543534544fsdfdseFQWERvD23423423F87dfdf654sdfdsfDSFxcvUYH6RT67234234T54RE33242344234cfghijklxcvcm9876543nxvc7654vcxvopq765432rsJHGFDtuvwxyzAB8765CDEFGHIJK123dfd4567890"

/-- `sizeof (charset - 1)` in the C is the size of a `const char *`
operand (pointer arithmetic inside `sizeof`), i.e. `8` on the LP64
target the program is built for — not the alphabet length. -/
def sizeofCharsetMinusOne : Nat := 8

/-- `gera_password` (passthrough.c:298).  `rands n` models the value of
the `n`-th `rand()` call (non-negative, as `rand()` is).  With
`size ≠ 0` the C writes `size - 1` characters `charset[rand() % 8]` and
a terminating NUL at index `size - 1`; the model returns the string
without the terminator.  With `size = 0` the buffer is left untouched
(modelled as the empty string). -/
def gera_password (rands : Nat → Nat) (size : Nat) : String :=
  if size = 0 then ""
  else
    String.mk ((List.range (size - 1)).map
      (fun n => charset.toList.getD (rands n % sizeofCharsetMinusOne) ' '))

/-- `string_alloc` (passthrough.c:313): allocate and fill via
`gera_password` (malloc assumed to succeed). -/
def string_alloc (rands : Nat → Nat) (size : Nat) : String :=
  gera_password rands size

/-- The hard-coded credential-file path compared against in `xmp_open`
(passthrough.c:510). -/
def autenticacaoPath : String := "/Teste/autenticacao.txt"

/-- Observable outcome of one `xmp_open` / `xmp_create` call: the C
return value, the bound handle (`fi->fh`, `none` when never assigned),
and which external collaborators were invoked during the call. -/
structure OpenResult where
  ret : Int
  fh : Option Int
  promptShown : Bool
  credConsulted : Bool
  permConsulted : Bool
  otpIssued : Bool
  otpDelivered : Bool
  otpToken : Option String
  deriving Repr, DecidableEq

/-- All inputs one `xmp_open` call depends on: the two store files (and
the errno a failing `fopen` would set), the credential lines the user
enters, the line entered at the OTP prompt, the `rand()` stream, the
indeterminate value read when `credenciais[3]` was never written
(`junkUid`), the result and errno of the underlying `open`, and the
ambient errno on entry. -/
structure OpenCtx where
  credFile : Option (List String)
  credFopenErr : Int
  permFile : Option (List String)
  permFopenErr : Int
  myuser : String
  mypass : String
  otpEntered : String
  rands : Nat → Nat
  junkUid : String
  hostOpenRes : Int
  hostOpenErr : Int
  errno0 : Int

/-- The `verifica_credenciais` call of `xmp_open` (passthrough.c:461). -/
def openAuth (c : OpenCtx) : Int × Int × Option (List String) :=
  verifica_credenciais c.credFile c.credFopenErr c.myuser c.mypass c.errno0

/-- `credenciais[3]` as passed to `verifica_acesso`
(passthrough.c:468): the fourth copied field, or indeterminate memory
when fewer than four fields were copied or no line matched. -/
def openUid (c : OpenCtx) : String :=
  match (openAuth c).2.2 with
  | some rec => rec.getD 3 c.junkUid
  | none => c.junkUid

/-- The `verifica_acesso` call of `xmp_open` (passthrough.c:468); it is
made unconditionally, before the authentication result is inspected. -/
def openAccess (c : OpenCtx) (path : String) : Int × Int :=
  verifica_acesso c.permFile c.permFopenErr (openUid c) path (openAuth c).2.1

/-- `xmp_open` (passthrough.c:440): prompt for credentials,
authenticate, authorize (unconditionally), and only when `access == 1`
and `autenticado == 1` generate and deliver the OTP, prompt for it,
apply the special-file gate, and fall through to the host `open`.
Every denial returns the negation of the errno current at that
point. -/
def xmp_open (c : OpenCtx) (path : String) : OpenResult :=
  let aut := (openAuth c).1
  let acc := (openAccess c path).1
  let e2 := (openAccess c path).2
  if acc ≠ 1 then
    { ret := -e2, fh := none, promptShown := true, credConsulted := true,
      permConsulted := true, otpIssued := false, otpDelivered := false,
      otpToken := none }
  else if aut = 1 then
    let senha := string_alloc c.rands 7
    if c.otpEntered ≠ senha then
      { ret := -e2, fh := none, promptShown := true, credConsulted := true,
        permConsulted := true, otpIssued := true, otpDelivered := true,
        otpToken := some senha }
    else if path = autenticacaoPath ∧ c.myuser ≠ "root" then
      { ret := -e2, fh := none, promptShown := true, credConsulted := true,
        permConsulted := true, otpIssued := true, otpDelivered := true,
        otpToken := some senha }
    else if c.hostOpenRes = -1 then
      { ret := -c.hostOpenErr, fh := none, promptShown := true,
        credConsulted := true, permConsulted := true, otpIssued := true,
        otpDelivered := true, otpToken := some senha }
    else
      { ret := 0, fh := some c.hostOpenRes, promptShown := true,
        credConsulted := true, permConsulted := true, otpIssued := true,
        otpDelivered := true, otpToken := some senha }
  else
    { ret := -e2, fh := none, promptShown := true, credConsulted := true,
      permConsulted := true, otpIssued := false, otpDelivered := false,
      otpToken := none }

/-- `xmp_create` (passthrough.c:284): `open(path, fi->flags, mode)`
directly — no prompt, no store lookup, no OTP.  `hostOpen` models the
host `open` as a function of the caller-supplied flags and mode;
`openErr` is the errno a failure sets. -/
def xmp_create (hostOpen : Int → Int → Int) (flags mode openErr : Int) :
    OpenResult :=
  let res := hostOpen flags mode
  if res = -1 then
    { ret := -openErr, fh := none, promptShown := false,
      credConsulted := false, permConsulted := false, otpIssued := false,
      otpDelivered := false, otpToken := none }
  else
    { ret := 0, fh := some res, promptShown := false,
      credConsulted := false, permConsulted := false, otpIssued := false,
      otpDelivered := false, otpToken := none }

/-- `xmp_getattr` (passthrough.c:73): `lstat`, then the universal error
convention.  `lstatRes` is the host result (`-1` = failure, with
`lstatErr` the errno it set). -/
def xmp_getattr (lstatRes lstatErr : Int) : Int :=
  if lstatRes = -1 then -lstatErr else 0

/-- `xmp_read` (passthrough.c:534).  `fi` carries the bound handle when
present; otherwise the path is opened on the fly (`openRes`, with
`openErr` the errno a failure sets).  `preadRes` is the `pread` result
(`-1` = failure with errno `preadErr`), `errno0` the ambient errno. -/
def xmp_read (fi : Option Int) (openRes openErr preadRes preadErr errno0 : Int) :
    Int :=
  let fd := match fi with
    | none => openRes
    | some fh => fh
  let e1 := match fi with
    | none => if openRes = -1 then openErr else errno0
    | some _ => errno0
  if fd = -1 then -e1
  else if preadRes = -1 then -preadErr
  else preadRes

/-- `xmp_release` (passthrough.c:592): `close(fi->fh)` with the result
discarded; the handler returns `0` unconditionally. -/
def xmp_release (closeRes closeErr : Int) : Int := 0

/-- Follows the spec's words (§4.1): the credential store "contains a
matching record for U" when field 0 of some line equals the username,
and the record's field 1 is the password. -/
def specCredMatches (lines : List String) (u pw : String) : Prop :=
  ∃ l ∈ lines, (cTokens l)[0]? = some u ∧ (cTokens l)[1]? = some pw

/-- Follows the spec's words (§4.2): the permission store "lists U's
user-id for P" when some line has field 0 equal to the path and the
user-id among its fields 1..4. -/
def specPermLists (lines : List String) (path uid : String) : Prop :=
  ∃ l ∈ lines, (cTokens l)[0]? = some path ∧
    uid ∈ ((cTokens l).drop 1).take 4

instance (lines : List String) (u pw : String) :
    Decidable (specCredMatches lines u pw) := by
  unfold specCredMatches; infer_instance

instance (lines : List String) (path uid : String) :
    Decidable (specPermLists lines path uid) := by
  unfold specPermLists; infer_instance

/-- Concrete run used for C1: the entered username `u` appears only as
field 1 of the single credential line, yet the open succeeds. -/
def ctxC1 : OpenCtx :=
  { credFile := some ["x,u,pw,addr,7"], credFopenErr := 2,
    permFile := some ["/m/f,7"], permFopenErr := 2,
    myuser := "u", mypass := "pw", otpEntered := "aaaaaa",
    rands := fun _ => 0, junkUid := "J", hostOpenRes := 3,
    hostOpenErr := 2, errno0 := 0 }

/-- Concrete run used for C2: credentials are good but the permission
record for the path lists user-id `9`, not the caller's `7`. -/
def ctxC2 : OpenCtx :=
  { credFile := some ["u,pw,addr,7"], credFopenErr := 2,
    permFile := some ["/m/f,9"], permFopenErr := 2,
    myuser := "u", mypass := "pw", otpEntered := "aaaaaa",
    rands := fun _ => 0, junkUid := "J", hostOpenRes := 3,
    hostOpenErr := 2, errno0 := 0 }

/-- Concrete run used for C3: the password is wrong (authentication
fails) with ambient errno 13, and the permission file grants the
caller's user-id on the path. -/
def ctxC3 : OpenCtx :=
  { credFile := some ["u,pw,addr,7"], credFopenErr := 2,
    permFile := some ["/m/f,7"], permFopenErr := 2,
    myuser := "u", mypass := "bad", otpEntered := "aaaaaa",
    rands := fun _ => 0, junkUid := "J", hostOpenRes := 3,
    hostOpenErr := 2, errno0 := 13 }

/-- Concrete run used for C7: identical to the C3 run except that the
ambient errno is `0`, as it is when no prior library call failed. -/
def ctxC7 : OpenCtx :=
  { credFile := some ["u,pw,addr,7"], credFopenErr := 2,
    permFile := some ["/m/f,7"], permFopenErr := 2,
    myuser := "u", mypass := "bad", otpEntered := "aaaaaa",
    rands := fun _ => 0, junkUid := "J", hostOpenRes := 3,
    hostOpenErr := 2, errno0 := 0 }

/-! ## Helper lemmas -/

theorem matchFrom_head {key : String} : ∀ {ts rec : List String},
    matchFrom key ts = some rec → rec.head? = some key := by
  intro ts
  induction ts with
  | nil => intro rec h; simp [matchFrom] at h
  | cons t ts ih =>
    intro rec h
    by_cases ht : t = key
    · simp [matchFrom, ht] at h
      subst ht; cases h; rfl
    · simp [matchFrom, ht] at h
      exact ih h

theorem matchFrom_suffix {key : String} : ∀ {ts rec : List String},
    matchFrom key ts = some rec → rec <:+ ts := by
  intro ts
  induction ts with
  | nil => intro rec h; simp [matchFrom] at h
  | cons t ts ih =>
    intro rec h
    by_cases ht : t = key
    · subst ht
      simp [matchFrom] at h
      cases h; exact List.suffix_refl _
    · simp [matchFrom, ht] at h
      exact (ih h).trans (List.suffix_cons t ts)

theorem matchFrom_isSome (key : String) : ∀ {ts : List String},
    (matchFrom key ts).isSome = true ↔ key ∈ ts := by
  intro ts
  induction ts with
  | nil => simp [matchFrom]
  | cons t ts ih =>
    by_cases ht : t = key
    · subst ht; simp [matchFrom]
    · simp [matchFrom, ht, ih, Ne.symm ht]

theorem fileLookup_some {key : String} : ∀ {lines : List String}
    {rec : List String}, fileLookup key lines = some rec →
    rec.head? = some key ∧ ∃ l ∈ lines, rec <:+ cTokens l := by
  intro lines
  induction lines with
  | nil => intro rec h; simp [fileLookup] at h
  | cons l ls ih =>
    intro rec h
    unfold fileLookup at h
    cases hm : matchFrom key (cTokens l) with
    | some r =>
      rw [hm] at h
      cases h
      exact ⟨matchFrom_head hm, l, List.mem_cons_self l ls, matchFrom_suffix hm⟩
    | none =>
      rw [hm] at h
      obtain ⟨hh, l', hl', hs⟩ := ih h
      exact ⟨hh, l', List.mem_cons_of_mem l hl', hs⟩

theorem fileLookup_isSome {key : String} : ∀ {lines : List String},
    (fileLookup key lines).isSome = true ↔ ∃ l ∈ lines, key ∈ cTokens l := by
  intro lines
  induction lines with
  | nil => simp [fileLookup]
  | cons l ls ih =>
    unfold fileLookup
    cases hm : matchFrom key (cTokens l) with
    | some r =>
      simp only [Option.isSome_some, true_iff]
      have : key ∈ cTokens l := by
        rw [← matchFrom_isSome key]
        simp [hm]
      exact ⟨l, List.mem_cons_self l ls, this⟩
    | none =>
      have hno : key ∉ cTokens l := by
        rw [← matchFrom_isSome key]
        simp [hm]
      simp [ih, hno]

/-- First-field precision of the inner scan: the copied record starts
at the FIRST token equal to `key` — every token before it differs from
`key`. -/
theorem matchFrom_first {key : String} : ∀ {ts rec : List String},
    matchFrom key ts = some rec →
    ∃ ts1, ts = ts1 ++ rec ∧ key ∉ ts1 ∧ rec.head? = some key := by
  intro ts
  induction ts with
  | nil => intro rec h; simp [matchFrom] at h
  | cons t ts ih =>
    intro rec h
    by_cases ht : t = key
    · subst ht
      simp [matchFrom] at h
      cases h
      exact ⟨[], rfl, List.not_mem_nil t, rfl⟩
    · simp [matchFrom, ht] at h
      obtain ⟨ts1, hts, hnot, hhead⟩ := ih h
      refine ⟨t :: ts1, by rw [hts]; rfl, ?_, hhead⟩
      intro hmem
      rcases List.mem_cons.mp hmem with heq | hmem'
      · exact ht heq.symm
      · exact hnot hmem'

/-- First-line precision of the outer loop: the record returned by
`fileLookup` comes from the FIRST line containing a matching token —
no earlier line contains `key` as a token. -/
theorem fileLookup_first {key : String} : ∀ {lines rec : List String},
    fileLookup key lines = some rec →
    ∃ pre l post, lines = pre ++ l :: post ∧
      (∀ l' ∈ pre, key ∉ cTokens l') ∧
      matchFrom key (cTokens l) = some rec := by
  intro lines
  induction lines with
  | nil => intro rec h; simp [fileLookup] at h
  | cons l ls ih =>
    intro rec h
    unfold fileLookup at h
    cases hm : matchFrom key (cTokens l) with
    | some r =>
      rw [hm] at h
      cases h
      exact ⟨[], l, ls, rfl, by simp, hm⟩
    | none =>
      rw [hm] at h
      obtain ⟨pre, l', post, heq, hpre, hm'⟩ := ih h
      refine ⟨l :: pre, l', post, by rw [heq]; rfl, ?_, hm'⟩
      intro l'' hl''
      rcases List.mem_cons.mp hl'' with heq'' | hmem''
      · subst heq''
        intro hkey
        have : (matchFrom key (cTokens l'')).isSome = true :=
          (matchFrom_isSome key).mpr hkey
        rw [hm] at this
        simp at this
      · exact hpre l'' hmem''

theorem scanFirst5_iff {rec : List String} {id : String} :
    scanFirst5 rec id = true ↔ id ∈ rec.take 5 := by
  simp [scanFirst5, List.any_eq_true]

/-- The record `verifica_credenciais` copies is exactly the
`fileLookup` result. -/
theorem verifica_credenciais_record (lines : List String) (fe : Int)
    (u p : String) (e : Int) :
    (verifica_credenciais (some lines) fe u p e).2.2 = fileLookup u lines := by
  cases h : fileLookup u lines with
  | none => simp [verifica_credenciais, h]
  | some rec =>
    by_cases hp : rec[1]? = some p <;> simp [verifica_credenciais, h, hp]

/-- The errno `verifica_credenciais` leaves behind is nonnegative
whenever the entry errno is and a failing `fopen` sets a positive
errno. -/
theorem verifica_credenciais_errno_nonneg (file : Option (List String))
    (fe : Int) (u p : String) (e : Int) (he : 0 ≤ e) (hfe : 0 < fe) :
    0 ≤ (verifica_credenciais file fe u p e).2.1 := by
  cases file with
  | none => simpa [verifica_credenciais] using le_of_lt hfe
  | some lines =>
    cases h : fileLookup u lines with
    | none => simpa [verifica_credenciais, h] using he
    | some rec =>
      by_cases hp : rec[1]? = some p <;>
        simp [verifica_credenciais, h, hp, he]

/-- `verifica_credenciais` returns `1` exactly when a line contains a
field equal to the username and the field after the match equals the
password (for nonnegative ambient errno). -/
theorem verifica_credenciais_eq_one (lines : List String) (fe : Int)
    (u p : String) (e : Int) (he : 0 ≤ e) :
    (verifica_credenciais (some lines) fe u p e).1 = 1 ↔
      ∃ rec, fileLookup u lines = some rec ∧ rec[1]? = some p := by
  cases h : fileLookup u lines with
  | none => simp [verifica_credenciais, h]
  | some rec =>
    by_cases hp : rec[1]? = some p
    · simp [verifica_credenciais, h, hp]
    · simp only [verifica_credenciais, h, hp, if_false]
      constructor
      · intro h1
        exfalso
        omega
      · rintro ⟨rec', hrec', hp'⟩
        cases hrec'
        exact absurd hp' hp

/-- `verifica_acesso` grants exactly when a line contains a field equal
to the path and one of the first five fields from the match onward
equals the user-id (for nonnegative ambient errno). -/
theorem verifica_acesso_eq_one (lines : List String) (fe : Int)
    (id path : String) (e : Int) (he : 0 ≤ e) :
    (verifica_acesso (some lines) fe id path e).1 = 1 ↔
      ∃ rec, fileLookup path lines = some rec ∧ id ∈ rec.take 5 := by
  cases h : fileLookup path lines with
  | none => simp [verifica_acesso, h]
  | some rec =>
    by_cases hs : scanFirst5 rec id
    · simp [verifica_acesso, h, hs, scanFirst5_iff.mp hs]
    · have hval : (verifica_acesso (some lines) fe id path e).1 = -e := by
        simp [verifica_acesso, h, hs]
      constructor
      · intro h1; rw [hval] at h1; exfalso; omega
      · rintro ⟨rec', hrec', hmem⟩
        cases hrec'
        exact absurd (scanFirst5_iff.mpr hmem) hs

/-! ## Claims -/

/-- C10: a permission file with a record whose field 0 equals path `P`
grants `authorize(P, U)` when the user-id `U` is `P` itself, even when
the record lists no user-id at all: the `j = 0..4` scan includes the
path field of the matched record. -/
theorem C10_authorize_grants_path_as_uid (lines : List String)
    (fe e : Int) (P : String)
    (h : ∃ l ∈ lines, (cTokens l)[0]? = some P) :
    (verifica_acesso (some lines) fe P P e).1 = 1 := by
  obtain ⟨l, hl, h0⟩ := h
  have hmem : P ∈ cTokens l := List.getElem?_mem h0
  have hsome : (fileLookup P lines).isSome = true :=
    fileLookup_isSome.mpr ⟨l, hl, hmem⟩
  obtain ⟨rec, hrec⟩ := Option.isSome_iff_exists.mp hsome
  have hhead := (fileLookup_some hrec).1
  cases rec with
  | nil => simp at hhead
  | cons a tl =>
    simp at hhead
    have hscan : scanFirst5 (a :: tl) P = true := by
      apply scanFirst5_iff.mpr
      rw [hhead]
      simp [List.take_succ_cons]
    simp [verifica_acesso, hrec, hscan]

/-- C10 witness: a one-line permission file `"/m/x"` (a path with no
user-id fields at all) authorizes the "user" whose id is `"/m/x"`. -/
theorem C10_authorize_grants_path_as_uid_witness :
    (∃ l ∈ ["/m/x"], (cTokens l)[0]? = some "/m/x") ∧
    (verifica_acesso (some ["/m/x"]) 2 "/m/x" "/m/x" 0).1 = 1 :=
  ⟨by decide, C10_authorize_grants_path_as_uid ["/m/x"] 2 0 "/m/x" (by decide)⟩

/-- C4 counterexample: with the single credential line `"a,b,c,d"` and
username `"b"`, the lookup succeeds and returns the record
`["b","c","d"]`, although field 0 of no line equals `"b"` — the claim
that a record is returned only on a field-0 match is false. -/
theorem C4_counterexample :
    (verifica_credenciais (some ["a,b,c,d"]) 5 "b" "c" 0).2.2 =
      some ["b", "c", "d"] ∧
    (verifica_credenciais (some ["a,b,c,d"]) 5 "b" "c" 0).1 = 1 ∧
    ∀ l ∈ ["a,b,c,d"], ¬ (cTokens l)[0]? = some "b" := by decide

/-- C4 amended: the credential lookup matches the username against
every comma-separated field; a record is returned exactly when some
field of some line equals the username byte-for-byte; the first
matching line wins — every earlier line has no field equal to the
username — and within it the first matching field wins — the record is
that line's fields from a position such that every earlier field
differs from the username, headed by the username itself; and the call
returns 1 exactly when the field after the match equals the entered
password. -/
theorem C4_lookup_matches_any_field (lines : List String) (fe : Int)
    (u p : String) (e : Int) :
    ((verifica_credenciais (some lines) fe u p e).2.2.isSome = true ↔
      ∃ l ∈ lines, u ∈ cTokens l) ∧
    (∀ rec, (verifica_credenciais (some lines) fe u p e).2.2 = some rec →
      rec.head? = some u ∧
      ∃ pre l post ts1, lines = pre ++ l :: post ∧
        (∀ l' ∈ pre, u ∉ cTokens l') ∧
        cTokens l = ts1 ++ rec ∧ u ∉ ts1) ∧
    (0 ≤ e → ((verifica_credenciais (some lines) fe u p e).1 = 1 ↔
      ∃ rec, (verifica_credenciais (some lines) fe u p e).2.2 = some rec ∧
        rec[1]? = some p)) := by
  refine ⟨?_, ?_, ?_⟩
  · rw [verifica_credenciais_record]; exact fileLookup_isSome
  · intro rec h
    rw [verifica_credenciais_record] at h
    obtain ⟨pre, l, post, heq, hpre, hm⟩ := fileLookup_first h
    obtain ⟨ts1, hts, hnot, hhead⟩ := matchFrom_first hm
    exact ⟨hhead, pre, l, post, ts1, heq, hpre, hts, hnot⟩
  · intro he
    simp only [verifica_credenciais_record]
    exact verifica_credenciais_eq_one lines fe u p e he

/-- C4 amended witness: evaluating the password-gating conjunct at the
concrete counterexample file. -/
theorem C4_lookup_matches_any_field_witness :
    (0:Int) ≤ 0 ∧
    ((verifica_credenciais (some ["a,b,c,d"]) 5 "b" "c" 0).1 = 1 ↔
      ∃ rec, (verifica_credenciais (some ["a,b,c,d"]) 5 "b" "c" 0).2.2 =
        some rec ∧ rec[1]? = some "c") :=
  ⟨le_refl 0, (C4_lookup_matches_any_field ["a,b,c,d"] 5 "b" "c" 0).2.2
    (le_refl 0)⟩

/-- C5 counterexample: (i) a matched record without the user-id and a
failed `fopen` both return `-5` when the relevant errno is 5 — denied
and io_error are not distinct outcomes; (ii) a line whose field 0 is
`"a"` (not the path) still grants, because the path is matched against
every field. -/
theorem C5_counterexample :
    (verifica_acesso (some ["/m/x,7"]) 5 "9" "/m/x" 5).1 = -5 ∧
    (verifica_acesso none 5 "9" "/m/x" 5).1 = -5 ∧
    (verifica_acesso (some ["a,/m/x,9"]) 5 "9" "/m/x" 0).1 = 1 ∧
    ¬ (cTokens "a,/m/x,9")[0]? = some "/m/x" := by decide

/-- C5 amended: `verifica_acesso` grants exactly when some line has a
field equal to the path and one of the first five fields from that
match onward (the path field included) equals the user-id; it returns
`(0, errno)` when no line matches; a matched record without the
user-id returns the negated ambient errno and a failed `fopen` the
negated fopen errno, so the two denial forms are not distinct
outcomes. -/
theorem C5_authorize_characterization (lines : List String) (fe : Int)
    (id path : String) (e : Int) (he : 0 ≤ e) :
    ((verifica_acesso (some lines) fe id path e).1 = 1 ↔
      ∃ rec, fileLookup path lines = some rec ∧ id ∈ rec.take 5) ∧
    (fileLookup path lines = none →
      verifica_acesso (some lines) fe id path e = (0, e)) ∧
    (∀ rec, fileLookup path lines = some rec → id ∉ rec.take 5 →
      verifica_acesso (some lines) fe id path e = (-e, e)) ∧
    verifica_acesso none fe id path e = (-fe, fe) := by
  refine ⟨verifica_acesso_eq_one lines fe id path e he, ?_, ?_, rfl⟩
  · intro h; simp [verifica_acesso, h]
  · intro rec h hmem
    have hs : ¬ scanFirst5 rec id = true :=
      fun hs => hmem (scanFirst5_iff.mp hs)
    simp [verifica_acesso, h, hs]

/-- C5 amended witness: the matched-record-without-user-id conjunct at
a concrete file, returning the negated ambient errno. -/
theorem C5_authorize_characterization_witness :
    (0:Int) ≤ 5 ∧
    verifica_acesso (some ["/m/x,7"]) 3 "9" "/m/x" 5 = (-5, 5) :=
  ⟨by decide, (C5_authorize_characterization ["/m/x,7"] 3 "9" "/m/x" 5
    (by decide)).2.2.1 ["/m/x", "7"] (by decide) (by decide)⟩

/-- C8 counterexample: `xmp_release` returns `0` even when `close`
failed (result `-1`, errno 9) instead of the convention's `-9`. -/
theorem C8_counterexample :
    xmp_release (-1) 9 = 0 ∧ ¬ xmp_release (-1) 9 = -9 := by decide

/-- C8 amended: the negation-of-errno convention holds for `getattr`
and `read` (on both the bound-handle and open-on-the-fly paths), but
`release` discards the `close` result and returns `0`
unconditionally. -/
theorem C8_error_convention (lr le fh opr oe pr pe e0 cr ce : Int) :
    (lr = -1 → xmp_getattr lr le = -le) ∧
    (lr ≠ -1 → xmp_getattr lr le = 0) ∧
    (fh ≠ -1 → pr = -1 → xmp_read (some fh) opr oe pr pe e0 = -pe) ∧
    (fh ≠ -1 → pr ≠ -1 → xmp_read (some fh) opr oe pr pe e0 = pr) ∧
    (opr = -1 → xmp_read none opr oe pr pe e0 = -oe) ∧
    (opr ≠ -1 → pr = -1 → xmp_read none opr oe pr pe e0 = -pe) ∧
    (opr ≠ -1 → pr ≠ -1 → xmp_read none opr oe pr pe e0 = pr) ∧
    xmp_release cr ce = 0 := by
  refine ⟨fun h => by simp [xmp_getattr, h],
    fun h => by simp [xmp_getattr, h],
    fun h1 h2 => by simp [xmp_read, h1, h2],
    fun h1 h2 => by simp [xmp_read, h1, h2],
    fun h => by simp [xmp_read, h],
    fun h1 h2 => by simp [xmp_read, h1, h2],
    fun h1 h2 => by simp [xmp_read, h1, h2],
    rfl⟩

/-- C8 amended witness: `getattr` returning the negated `lstat` errno
at a concrete failure. -/
theorem C8_error_convention_witness :
    (-1 : Int) = -1 ∧ xmp_getattr (-1) 7 = -7 :=
  ⟨rfl, (C8_error_convention (-1) 7 0 0 0 0 0 0 (-1) 9).1 rfl⟩

/-- C9: `xmp_create` forwards to the host `open` with the
caller-supplied flags and mode, binds the returned descriptor as the
handle, and performs no mediation: no prompt, no credential or
permission lookup, no OTP generation or delivery. -/
theorem C9_create_unmediated (hostOpen : Int → Int → Int)
    (flags mode openErr : Int) :
    ((xmp_create hostOpen flags mode openErr).promptShown = false ∧
     (xmp_create hostOpen flags mode openErr).credConsulted = false ∧
     (xmp_create hostOpen flags mode openErr).permConsulted = false ∧
     (xmp_create hostOpen flags mode openErr).otpIssued = false ∧
     (xmp_create hostOpen flags mode openErr).otpDelivered = false) ∧
    (hostOpen flags mode = -1 →
      (xmp_create hostOpen flags mode openErr).ret = -openErr ∧
      (xmp_create hostOpen flags mode openErr).fh = none) ∧
    (hostOpen flags mode ≠ -1 →
      (xmp_create hostOpen flags mode openErr).ret = 0 ∧
      (xmp_create hostOpen flags mode openErr).fh =
        some (hostOpen flags mode)) := by
  by_cases hres : hostOpen flags mode = -1 <;>
    simp [xmp_create, hres]

/-- A token produced by `string_alloc(7)` has 6 characters: the C
decrements `size` before the fill loop and spends the last byte on the
NUL terminator. -/
theorem string_alloc_length7 (r : Nat → Nat) :
    (string_alloc r 7).length = 6 := by
  have h : (string_alloc r 7).length =
      ((List.range 6).map
        (fun n => charset.toList.getD (r n % sizeofCharsetMinusOne) ' ')).length :=
    rfl
  rw [h, List.length_map, List.length_range]

/-- Every character of a `string_alloc(7)` token is drawn from the
`charset` alphabet (in fact from its first
`sizeofCharsetMinusOne = 8` characters). -/
theorem string_alloc_mem_charset (r : Nat → Nat) :
    ∀ ch ∈ (string_alloc r 7).toList, ch ∈ charset.toList := by
  intro ch hch
  have hch' : ch ∈ (List.range 6).map
      (fun n => charset.toList.getD (r n % sizeofCharsetMinusOne) ' ') := hch
  obtain ⟨n, hn, hf⟩ := List.mem_map.mp hch'
  rw [← hf]
  have h8 : r n % sizeofCharsetMinusOne < sizeofCharsetMinusOne :=
    Nat.mod_lt _ (by decide)
  have hlt : r n % sizeofCharsetMinusOne < charset.toList.length :=
    lt_of_lt_of_le h8 (by decide)
  rw [List.getD_eq_getElem _ _ hlt]
  exact List.getElem_mem hlt

/-- Whenever `xmp_open` reaches OTP issuance, the token generated (and
delivered, and compared against the prompt response) is
`string_alloc(rands, 7)`. -/
theorem xmp_open_otpToken (c : OpenCtx) (path : String)
    (h : (xmp_open c path).otpIssued = true) :
    (xmp_open c path).otpToken = some (string_alloc c.rands 7) := by
  simp only [xmp_open] at h ⊢
  split_ifs at h ⊢ <;> simp_all

/-- C6 counterexample: the run `ctxC1` reaches OTP issuance, and with
the all-zeros `rand()` stream the issued token is `"aaaaaa"` — 6
characters, not 7. -/
theorem C6_counterexample :
    (xmp_open ctxC1 "/m/f").otpIssued = true ∧
    (xmp_open ctxC1 "/m/f").otpToken = some "aaaaaa" ∧
    ¬ ("aaaaaa".length = 7) := by decide

/-- C6 amended: every open call that reaches OTP issuance generates a
token of exactly 6 characters (the `length` argument 7 minus one for
the NUL terminator), each drawn from the fixed alphabet. -/
theorem C6_otp_token_six_chars (c : OpenCtx) (path : String)
    (h : (xmp_open c path).otpIssued = true) :
    ∃ t, (xmp_open c path).otpToken = some t ∧ t.length = 6 ∧
      ∀ ch ∈ t.toList, ch ∈ charset.toList :=
  ⟨string_alloc c.rands 7, xmp_open_otpToken c path h,
    string_alloc_length7 c.rands, string_alloc_mem_charset c.rands⟩

/-- C6 amended witness: the issuing run `ctxC1` gets a 6-character
in-alphabet token. -/
theorem C6_otp_token_six_chars_witness :
    (xmp_open ctxC1 "/m/f").otpIssued = true ∧
    ∃ t, (xmp_open ctxC1 "/m/f").otpToken = some t ∧ t.length = 6 ∧
      ∀ ch ∈ t.toList, ch ∈ charset.toList :=
  ⟨by decide, C6_otp_token_six_chars ctxC1 "/m/f" (by decide)⟩

/-- C9 witness: a successful host `open` returning descriptor 4 is
bound as the handle with return value 0. -/
theorem C9_create_unmediated_witness :
    (fun _ _ => (4:Int)) (1:Int) (2:Int) ≠ -1 ∧
    ((xmp_create (fun _ _ => (4:Int)) 1 2 13).ret = 0 ∧
     (xmp_create (fun _ _ => (4:Int)) 1 2 13).fh =
       some ((fun _ _ => (4:Int)) (1:Int) (2:Int))) :=
  ⟨by decide, (C9_create_unmediated (fun _ _ => (4:Int)) 1 2 13).2.2
    (by decide)⟩

/-- C2: when authorization is denied because the permission file has
no record for the path or the matched record does not list the
user-id, `xmp_open` never generates or delivers an OTP token.  The two
errno side conditions state that errno values are nonnegative (POSIX)
and a failing `fopen` sets a positive errno. -/
theorem C2_no_otp_without_authorization (c : OpenCtx) (path : String)
    (ls : List String) (he : 0 ≤ c.errno0) (hcf : 0 < c.credFopenErr)
    (hperm : c.permFile = some ls)
    (hnot : ∀ rec, fileLookup path ls = some rec →
      openUid c ∉ rec.take 5) :
    (xmp_open c path).otpIssued = false ∧
    (xmp_open c path).otpDelivered = false := by
  have he1 : 0 ≤ (openAuth c).2.1 :=
    verifica_credenciais_errno_nonneg c.credFile c.credFopenErr c.myuser
      c.mypass c.errno0 he hcf
  have hacc : (openAccess c path).1 ≠ 1 := by
    unfold openAccess
    rw [hperm]
    cases h : fileLookup path ls with
    | none => simp [verifica_acesso, h]
    | some rec =>
      have hs : ¬ scanFirst5 rec (openUid c) = true :=
        fun hs => hnot rec h (scanFirst5_iff.mp hs)
      simp only [verifica_acesso, h, hs, if_false]
      intro hcontra
      have hneg : -(openAuth c).2.1 = 1 := hcontra
      omega
  simp [xmp_open, hacc]

/-- C2 witness: credentials are good but the permission record for
`/m/f` lists only user-id 9 while the caller's is 7; no OTP is issued
or delivered. -/
theorem C2_no_otp_without_authorization_witness :
    ((0:Int) ≤ ctxC2.errno0 ∧ (0:Int) < ctxC2.credFopenErr ∧
     ctxC2.permFile = some ["/m/f,9"]) ∧
    ((xmp_open ctxC2 "/m/f").otpIssued = false ∧
     (xmp_open ctxC2 "/m/f").otpDelivered = false) :=
  ⟨⟨by decide, by decide, by decide⟩,
    C2_no_otp_without_authorization ctxC2 "/m/f" ["/m/f,9"] (by decide)
      (by decide) (by decide)
      (by
        intro rec h
        rw [show fileLookup "/m/f" ["/m/f,9"] = some ["/m/f", "9"] from by
          decide] at h
        cases h
        decide)⟩

/-- C3 counterexample: in the run `ctxC3` authentication fails (wrong
password), yet the permission store is consulted — `verifica_acesso`
is invoked unconditionally at passthrough.c:468, before `autenticado`
is inspected — and the denial that is returned (`-13`) is produced
after that consultation.  The claim that the mediator moves directly
to the deny state without consulting the permission store is false. -/
theorem C3_counterexample :
    (openAuth ctxC3).1 ≠ 1 ∧
    (xmp_open ctxC3 "/m/f").permConsulted = true ∧
    (xmp_open ctxC3 "/m/f").ret = -13 ∧
    (xmp_open ctxC3 "/m/f").fh = none := by decide

/-- C3 amended: when authentication fails the call is still denied —
no handle is bound, no OTP is issued or delivered, and the returned
value is the negation of the errno current after the authorization
check — but the permission store IS consulted first, unconditionally. -/
theorem C3_auth_failure_denies_after_authz (c : OpenCtx) (path : String)
    (h : (openAuth c).1 ≠ 1) :
    (xmp_open c path).fh = none ∧
    (xmp_open c path).otpIssued = false ∧
    (xmp_open c path).otpDelivered = false ∧
    (xmp_open c path).permConsulted = true ∧
    (xmp_open c path).ret = -(openAccess c path).2 := by
  by_cases hacc : (openAccess c path).1 ≠ 1
  · simp [xmp_open, hacc]
  · simp [xmp_open, hacc, h]

/-- C3 amended witness: the wrong-password run `ctxC3` is denied with
`-13` after the permission store was consulted. -/
theorem C3_auth_failure_denies_after_authz_witness :
    (openAuth ctxC3).1 ≠ 1 ∧
    ((xmp_open ctxC3 "/m/f").fh = none ∧
     (xmp_open ctxC3 "/m/f").otpIssued = false ∧
     (xmp_open ctxC3 "/m/f").otpDelivered = false ∧
     (xmp_open ctxC3 "/m/f").permConsulted = true ∧
     (xmp_open ctxC3 "/m/f").ret = -(openAccess ctxC3 "/m/f").2) :=
  ⟨by decide, C3_auth_failure_denies_after_authz ctxC3 "/m/f" (by decide)⟩

/-- C7 (code bug): in the run `ctxC7` authentication fails and the
call is denied — no handle is bound — yet the value returned to the
kernel is `0`, not a strictly negative one: the denial returns
`-errno` and the ambient errno is `0` because no prior library call
failed.  The kernel would treat this denied `open` as a success with
an unset handle. -/
theorem C7_denial_returns_zero_with_zero_errno :
    (openAuth ctxC7).1 ≠ 1 ∧
    (xmp_open ctxC7 "/m/f").fh = none ∧
    (xmp_open ctxC7 "/m/f").ret = 0 ∧
    ¬ ((xmp_open ctxC7 "/m/f").ret < 0) := by decide

/-- C1 counterexample: the open in run `ctxC1` succeeds (handle 3 is
bound) although the credential store contains no record in the spec's
sense — no line of the credential file has field 0 equal to the
entered username `"u"` (it appears only as field 1). -/
theorem C1_counterexample :
    (xmp_open ctxC1 "/m/f").ret = 0 ∧
    (xmp_open ctxC1 "/m/f").fh = some 3 ∧
    ctxC1.credFile = some ["x,u,pw,addr,7"] ∧
    ¬ specCredMatches ["x,u,pw,addr,7"] ctxC1.myuser ctxC1.mypass := by
  decide

/-- C1 amended: `open` succeeds only if (a) the credential lookup — as
the code performs it, matching the username against every field —
returns a record whose next field equals the entered password, (b) the
permission lookup — matching the path against every field — returns a
record one of whose first five fields equals the user-id passed, (c)
the OTP response entered equals the token issued during this call, and
(d) if the path is the credential file, the entered username is
`"root"`.  The errno side conditions are as in C2. -/
theorem C1_open_success_conditions (c : OpenCtx) (path : String)
    (he : 0 ≤ c.errno0) (hcf : 0 < c.credFopenErr)
    (hpf : 0 < c.permFopenErr)
    (hs : (xmp_open c path).fh.isSome = true) :
    (∃ ls rec, c.credFile = some ls ∧ fileLookup c.myuser ls = some rec ∧
      rec[1]? = some c.mypass) ∧
    (∃ ls rec, c.permFile = some ls ∧ fileLookup path ls = some rec ∧
      openUid c ∈ rec.take 5) ∧
    c.otpEntered = string_alloc c.rands 7 ∧
    (path = autenticacaoPath → c.myuser = "root") := by
  by_cases hacc : (openAccess c path).1 ≠ 1
  · simp [xmp_open, hacc] at hs
  by_cases haut : (openAuth c).1 = 1
  case neg => simp [xmp_open, hacc, haut] at hs
  by_cases hotp : c.otpEntered ≠ string_alloc c.rands 7
  · simp [xmp_open, hacc, haut, hotp] at hs
  by_cases hgate : path = autenticacaoPath ∧ c.myuser ≠ "root"
  · simp only [xmp_open] at hs
    rw [if_neg hacc, if_pos haut, if_neg hotp, if_pos hgate] at hs
    simp at hs
  refine ⟨?_, ?_, not_not.mp hotp, ?_⟩
  · cases hcred : c.credFile with
    | none =>
      have h1 : (openAuth c).1 = -c.credFopenErr := by
        unfold openAuth; rw [hcred]; rfl
      rw [haut] at h1
      exfalso
      omega
    | some ls =>
      have h1 : (verifica_credenciais (some ls) c.credFopenErr c.myuser
          c.mypass c.errno0).1 = 1 := by
        have : openAuth c = verifica_credenciais (some ls) c.credFopenErr
            c.myuser c.mypass c.errno0 := by
          unfold openAuth; rw [hcred]
        rw [← this]; exact haut
      obtain ⟨rec, hrec, hp⟩ :=
        (verifica_credenciais_eq_one ls c.credFopenErr c.myuser c.mypass
          c.errno0 he).mp h1
      exact ⟨ls, rec, rfl, hrec, hp⟩
  · have hacc1 : (openAccess c path).1 = 1 := not_not.mp hacc
    have he1 : 0 ≤ (openAuth c).2.1 :=
      verifica_credenciais_errno_nonneg c.credFile c.credFopenErr c.myuser
        c.mypass c.errno0 he hcf
    cases hperm : c.permFile with
    | none =>
      have h1 : (openAccess c path).1 = -c.permFopenErr := by
        unfold openAccess; rw [hperm]; rfl
      rw [hacc1] at h1
      exfalso
      omega
    | some ls =>
      have h1 : (verifica_acesso (some ls) c.permFopenErr (openUid c) path
          (openAuth c).2.1).1 = 1 := by
        have : openAccess c path = verifica_acesso (some ls) c.permFopenErr
            (openUid c) path (openAuth c).2.1 := by
          unfold openAccess; rw [hperm]
        rw [← this]; exact hacc1
      obtain ⟨rec, hrec, hmem⟩ :=
        (verifica_acesso_eq_one ls c.permFopenErr (openUid c) path
          (openAuth c).2.1 he1).mp h1
      exact ⟨ls, rec, rfl, hrec, hmem⟩
  · intro hpatheq
    by_contra hroot
    exact hgate ⟨hpatheq, hroot⟩

/-- C1 amended witness: the successful run `ctxC1` satisfies all four
necessary conditions. -/
theorem C1_open_success_conditions_witness :
    ((0:Int) ≤ ctxC1.errno0 ∧ (0:Int) < ctxC1.credFopenErr ∧
     (0:Int) < ctxC1.permFopenErr ∧
     (xmp_open ctxC1 "/m/f").fh.isSome = true) ∧
    ((∃ ls rec, ctxC1.credFile = some ls ∧
        fileLookup ctxC1.myuser ls = some rec ∧
        rec[1]? = some ctxC1.mypass) ∧
     (∃ ls rec, ctxC1.permFile = some ls ∧
        fileLookup "/m/f" ls = some rec ∧
        openUid ctxC1 ∈ rec.take 5) ∧
     ctxC1.otpEntered = string_alloc ctxC1.rands 7 ∧
     ("/m/f" = autenticacaoPath → ctxC1.myuser = "root")) :=
  ⟨⟨by decide, by decide, by decide, by decide⟩,
    C1_open_success_conditions ctxC1 "/m/f" (by decide) (by decide)
      (by decide) (by decide)⟩

end Passthrough
